import Mathlib

/-!
Verification of the job-orchestration core of the `lm-fine-tuning` MCP server.

The development shallowly embeds the Python sources:
  * `tools/training.py`  — `TrainingTools.estimate_cost`, `TrainingTools.create_job`
  * `tools/storage.py`   — `JobStorage` (JSON-file registry)
  * `tools/monitoring.py`— `MonitoringTools.get_status`, `_get_github_status`,
                           `MonitoringTools.cancel_job`

Python floats are modelled as `ℚ`; Python `round` (banker's rounding) is
modelled by `roundHalfEven`; machine I/O (HTTP calls, env vars, the wall
clock) is passed in explicitly through environment records, and side
effects (registry file state, backend-call counts) are returned
explicitly.  Operations that raise in Python return an `Except`/error
constructor or are guarded by `Option` (division by zero).
-/

/-- Banker's rounding of a rational to an integer, as Python's `round(x)`:
nearest integer, ties to the even integer. -/
def roundHalfEven (q : ℚ) : ℤ :=
  if q - (⌊q⌋ : ℚ) < 1/2 then ⌊q⌋
  else if 1/2 < q - (⌊q⌋ : ℚ) then ⌊q⌋ + 1
  else if ⌊q⌋ % 2 = 0 then ⌊q⌋ else ⌊q⌋ + 1

/-- Python's `round(x, n)`: round to `n` decimal digits, ties to even. -/
def pyRound (q : ℚ) (ndigits : ℕ) : ℚ :=
  (roundHalfEven (q * 10 ^ ndigits) : ℚ) / 10 ^ ndigits

/-- Python's `int(x)` on a float: truncation toward zero. -/
def truncQ (q : ℚ) : ℤ :=
  if 0 ≤ q then ⌊q⌋ else ⌈q⌉

/-- Helper for `strContains`: does `sub` occur as a contiguous run in `l`? -/
def listContainsSub (sub : List Char) : List Char → Bool
  | [] => sub.isEmpty
  | c :: rest => sub.isPrefixOf (c :: rest) || listContainsSub sub rest

/-- Python's `sub in s` substring test. -/
def strContains (s sub : String) : Bool :=
  listContainsSub sub.data s.data

/-- Python's `s.startswith(pre)` prefix test. -/
def strStarts (s pre : String) : Bool :=
  pre.data.isPrefixOf s.data

/-! ## Cost estimator (`TrainingTools.estimate_cost`, training.py 217-323) -/

/-- Table `self.hardware_costs` (training.py 24-30) read through
`.get(hardware, 1.0)` (training.py 234): USD per hour. -/
def hardware_costs (hardware : String) : ℚ :=
  if hardware = "t4-small" then 0.75
  else if hardware = "t4-medium" then 1.00
  else if hardware = "a10g-small" then 1.50
  else if hardware = "a10g-large" then 2.50
  else if hardware = "a100-large" then 5.00
  else 1.0

/-- Literal dict at training.py 243-249 read through `.get(hardware, 2.0)`:
base steps per second for each hardware class. -/
def steps_per_second_base (hardware : String) : ℚ :=
  if hardware = "t4-small" then 2.0
  else if hardware = "t4-medium" then 2.5
  else if hardware = "a10g-small" then 3.0
  else if hardware = "a10g-large" then 4.0
  else if hardware = "a100-large" then 6.0
  else 2.0

/-- Model-size adjustment of the step rate (training.py 252-257):
substring matches on the raw model name multiply the base rate. -/
def size_multiplier (model : String) : ℚ :=
  if strContains model "7B" || strContains model "7b" then 0.3
  else if strContains model "3B" || strContains model "3b" then 0.5
  else if strContains model "1.5B" || strContains model "1.5b" then 0.7
  else 1

/-- `TrainingTools._estimate_model_size` (training.py 284-299). -/
def estimate_model_size (model : String) : String :=
  let ml := model.toLower
  if strContains ml "0.5b" || strContains ml "500m" then "0.5B"
  else if strContains ml "1.5b" || strContains ml "1.7b" then "1.5B"
  else if strContains ml "3b" then "3B"
  else if strContains ml "7b" then "7B"
  else if strContains ml "13b" then "13B"
  else "unknown"

/-- `TrainingTools._estimate_dataset_size` (training.py 301-323).  With no
HF API client, a fixed table of common datasets with default 10000; with a
client configured, both the placeholder success branch and the exception
branch return 10000. -/
def estimate_dataset_size (hf_api : Bool) (dataset : String) : ℤ :=
  if hf_api then 10000
  else if dataset = "open-r1/codeforces-cots" then 5000
  else if dataset = "openai/gsm8k" then 7500
  else if dataset = "Anthropic/hh-rlhf" then 160000
  else 10000

/-- Effective step rate after the model-size adjustment
(training.py 243-257). -/
def adjusted_rate (model hardware : String) : ℚ :=
  steps_per_second_base hardware * size_multiplier model

/-- Value of `total_steps` (training.py 259), as a rational: Python `/` is
float division. -/
def total_steps_v (hf_api : Bool) (model dataset hardware : String)
    (epochs batch_size : ℤ) : ℚ :=
  ((estimate_dataset_size hf_api dataset : ℚ) * (epochs : ℚ)) / (batch_size : ℚ)

/-- Value of `estimated_seconds` (training.py 260). -/
def estimated_seconds_v (hf_api : Bool) (model dataset hardware : String)
    (epochs batch_size : ℤ) : ℚ :=
  total_steps_v hf_api model dataset hardware epochs batch_size /
    adjusted_rate model hardware

/-- Value of `estimated_minutes` (training.py 261). -/
def estimated_minutes_v (hf_api : Bool) (model dataset hardware : String)
    (epochs batch_size : ℤ) : ℚ :=
  estimated_seconds_v hf_api model dataset hardware epochs batch_size / 60

/-- Value of `estimated_hours` (training.py 262). -/
def estimated_hours_v (hf_api : Bool) (model dataset hardware : String)
    (epochs batch_size : ℤ) : ℚ :=
  estimated_minutes_v hf_api model dataset hardware epochs batch_size / 60

/-- Value of `estimated_cost` (training.py 265), before the final rounding. -/
def estimated_cost_v (hf_api : Bool) (model dataset hardware : String)
    (epochs batch_size : ℤ) : ℚ :=
  hardware_costs hardware *
    estimated_hours_v hf_api model dataset hardware epochs batch_size

/-- Return value of `TrainingTools.estimate_cost` (training.py 267-282). -/
structure CostEstimate where
  estimated_time_minutes : ℤ
  estimated_time_hours : ℚ
  estimated_cost_usd : ℚ
  hourly_rate_usd : ℚ
  hardware : String
  model_size : String
  dataset_size : ℤ
  epochs : ℤ
  batch_size : ℤ
  total_steps : ℤ
  steps_per_second : ℚ
  time_per_epoch_minutes : ℤ
  deriving DecidableEq, Repr

/-- Body of `TrainingTools.estimate_cost` on its non-raising domain. -/
def estimate_core (hf_api : Bool) (model dataset hardware : String)
    (epochs batch_size : ℤ) : CostEstimate :=
  let minutes := estimated_minutes_v hf_api model dataset hardware epochs batch_size
  { estimated_time_minutes := roundHalfEven minutes
    estimated_time_hours :=
      pyRound (estimated_hours_v hf_api model dataset hardware epochs batch_size) 2
    estimated_cost_usd :=
      pyRound (estimated_cost_v hf_api model dataset hardware epochs batch_size) 2
    hourly_rate_usd := hardware_costs hardware
    hardware := hardware
    model_size := estimate_model_size model
    dataset_size := estimate_dataset_size hf_api dataset
    epochs := epochs
    batch_size := batch_size
    total_steps := truncQ (total_steps_v hf_api model dataset hardware epochs batch_size)
    steps_per_second := pyRound (adjusted_rate model hardware) 2
    time_per_epoch_minutes := roundHalfEven (minutes / (epochs : ℚ)) }

/-- `TrainingTools.estimate_cost` (training.py 217-282).  `batch_size = 0`
raises `ZeroDivisionError` at `total_steps` (line 259) and `epochs = 0`
raises at `time_per_epoch_minutes` (line 280); both are modelled by
`none`. -/
def estimate_cost (hf_api : Bool) (model dataset hardware : String)
    (epochs batch_size : ℤ) : Option CostEstimate :=
  if batch_size = 0 ∨ epochs = 0 then none
  else some (estimate_core hf_api model dataset hardware epochs batch_size)

/-! ## Backend status mapper (`MonitoringTools._get_github_status`,
monitoring.py 93-109) -/

/-- Canonical-status computation at monitoring.py 94-109: the `(status,
conclusion)` pair of a GitHub Actions run (each `run_data.get(...)`, hence
possibly absent) mapped to the canonical status string. -/
def map_gh_status (gh_status gh_conclusion : Option String) : String :=
  if gh_status = some "completed" then
    if gh_conclusion = some "success" then "completed"
    else if gh_conclusion = some "failure" ∨ gh_conclusion = some "cancelled" ∨
        gh_conclusion = some "timed_out" then "failed"
    else "failed"
  else if gh_status = some "queued" ∨ gh_status = some "waiting" then "pending"
  else if gh_status = some "in_progress" then "running"
  else "unknown"

/-! ## Job registry (`JobStorage`, storage.py) -/

/-- The `config` dict of a job request; only the keys the orchestrator
reads (`config.get("epochs", 3)`, `config.get("batch_size", 8)`,
training.py 57-58) are modelled. -/
structure Config where
  epochs : Option ℤ
  batch_size : Option ℤ
  deriving DecidableEq, Repr

/-- A job record as written by `TrainingTools.create_job`
(training.py 97-109) and stamped by `JobStorage.create_job`
(storage.py 48-50). -/
structure Job where
  job_id : String
  status : String
  model : String
  dataset : String
  method : String
  hardware : String
  config : Config
  estimated_cost_usd : ℚ
  estimated_time_minutes : ℤ
  workflow_url : Option String
  backend : String
  created_at : String
  updated_at : String
  deriving DecidableEq, Repr

/-- State of the JSON storage file behind `JobStorage`: absent, present
but not valid JSON, or a well-formed list of job records. -/
inductive FileState where
  | missing
  | invalid
  | valid (jobs : List Job)
  deriving DecidableEq, Repr

/-- `JobStorage._read_jobs` (storage.py 30-37): `FileNotFoundError` and
`json.JSONDecodeError` are caught and yield the empty list. -/
def read_jobs : FileState → List Job
  | .missing => []
  | .invalid => []
  | .valid js => js

/-- `JobStorage.create_job` (storage.py 44-56): stamp `created_at` and
`updated_at` with the current time, append, write the whole list back.
Returns the stamped record and the new file state. -/
def storage_create_job (now : String) (fs : FileState) (jd : Job) :
    Job × FileState :=
  let j := { jd with created_at := now, updated_at := now }
  (j, .valid (read_jobs fs ++ [j]))

/-- `JobStorage.get_job` (storage.py 58-64): first record with a matching
`job_id`, else `None`. -/
def storage_get_job (fs : FileState) (job_id : String) : Option Job :=
  (read_jobs fs).find? (fun j => j.job_id = job_id)

/-- An `updates` dict passed to `JobStorage.update_job`; the code only
ever updates the `status` key (monitoring.py 119 and 204). -/
structure Updates where
  status : Option String
  deriving DecidableEq, Repr

/-- Effect of `job.update(updates); job["updated_at"] = ...`
(storage.py 72-73) on one record. -/
def apply_updates (now : String) (upd : Updates) (j : Job) : Job :=
  { j with status := upd.status.getD j.status, updated_at := now }

/-- Loop body of `JobStorage.update_job` (storage.py 70-77): update the
first record whose `job_id` matches, in place. -/
def update_in_list (now job_id : String) (upd : Updates) :
    List Job → Option Job × List Job
  | [] => (none, [])
  | j :: rest =>
    if j.job_id = job_id then
      let j' := apply_updates now upd j
      (some j', j' :: rest)
    else
      let r := update_in_list now job_id upd rest
      (r.1, j :: r.2)

/-- `JobStorage.update_job` (storage.py 66-80): merge the provided fields
into the matching record and rewrite the file; if no record matches,
return `None` and leave the file untouched. -/
def storage_update_job (now : String) (fs : FileState) (job_id : String)
    (upd : Updates) : Option Job × FileState :=
  let r := update_in_list now job_id upd (read_jobs fs)
  match r.1 with
  | some j => (some j, .valid r.2)
  | none => (none, fs)

/-- Stable descending insertion by `created_at`, modelling
`jobs.sort(key=..., reverse=True)` (storage.py 96): records created later
come first; ties keep their original order. -/
def insertByCreatedDesc (j : Job) : List Job → List Job
  | [] => [j]
  | k :: rest =>
    if j.created_at < k.created_at then k :: insertByCreatedDesc j rest
    else j :: k :: rest

/-- Stable sort of the whole list, newest `created_at` first. -/
def sortByCreatedDesc : List Job → List Job
  | [] => []
  | j :: rest => insertByCreatedDesc j (sortByCreatedDesc rest)

/-- `JobStorage.list_jobs` (storage.py 82-104).  A `status` of `None`,
`""` or `"all"` disables filtering (`if status and status != "all"`); a
falsy `offset`/`limit` (`None` or `0`) disables the corresponding slice. -/
def storage_list_jobs (fs : FileState) (status : Option String)
    (limit : Option ℕ) (offset : ℕ) : List Job :=
  let jobs := read_jobs fs
  let jobs := match status with
    | some s => if s ≠ "" ∧ s ≠ "all" then jobs.filter (fun j => j.status = s) else jobs
    | none => jobs
  let jobs := sortByCreatedDesc jobs
  let jobs := if offset ≠ 0 then jobs.drop offset else jobs
  match limit with
  | some l => if l ≠ 0 then jobs.take l else jobs
  | none => jobs

/-- Return value of `JobStorage.get_stats` (storage.py 121-134); the
`storage_path` string field is not modelled. -/
structure Stats where
  total_jobs : ℕ
  status_counts : List (String × ℕ)
  deriving DecidableEq, Repr

/-- Increment of `status_counts[status]` preserving dict insertion order
(storage.py 125-128). -/
def bump_count (counts : List (String × ℕ)) (status : String) :
    List (String × ℕ) :=
  match counts with
  | [] => [(status, 1)]
  | (s, n) :: rest =>
    if s = status then (s, n + 1) :: rest
    else (s, n) :: bump_count rest status

/-- `JobStorage.get_stats` (storage.py 121-134). -/
def storage_get_stats (fs : FileState) : Stats :=
  let jobs := read_jobs fs
  { total_jobs := jobs.length
    status_counts := jobs.foldl (fun acc j => bump_count acc j.status) [] }

/-! ## Submission orchestrator (`TrainingTools.create_job`,
training.py 32-123) -/

/-- Ambient environment of `TrainingTools.create_job`: configuration and
the outcomes of the external calls it may make.  `gh_run_id` is the
string form of `latest_run.get("id")` interpolated into the job id
(training.py 94; `"None"` when the run listing is empty), `gh_html_url`
its `html_url`. -/
structure CreateEnv where
  budget_limit : ℚ
  hf_api : Bool
  hf_has_create : Bool
  hf_job_suffix : String
  github_token : Bool
  gh_dispatch_ok : Bool
  gh_run_id : String
  gh_html_url : Option String
  deriving DecidableEq, Repr

/-- Return value of `TrainingTools.create_job`: the structured rejection
dict (training.py 64-69), a submission dict (training.py 75-84 or
112-121), or a raised exception. -/
inductive CreateResult where
  | rejected (reason : String) (estimated_cost budget_limit : ℚ)
  | submitted (job_id mth : String) (estimated_cost : ℚ)
      (estimated_time_minutes : ℤ) (hardware : String)
  | err (msg : String)
  deriving DecidableEq, Repr

/-- Side effects of one `create_job` call: number of primary-backend
(HF Jobs) submissions and of secondary-backend (workflow dispatch)
submissions performed. -/
structure CreateEffects where
  hf_submit_calls : ℕ
  gh_dispatch_calls : ℕ
  deriving DecidableEq, Repr

/-- `TrainingTools.create_job` (training.py 32-123).  Parameter strings
use `""` for a missing or empty field (`not all([...])`, line 49).  The
HF Jobs path is attempted when an HF API client is configured and exposes
`create_training_job` (line 72); `_submit_to_hf_jobs` is a placeholder
that cannot raise, so the fallback inside its `try` never fires and the
path returns without touching the registry.  The GitHub path dispatches
the workflow, persists the record, and returns. -/
def create_job (env : CreateEnv) (now : String) (fs : FileState)
    (model dataset method hardware : String) (cfg : Config) :
    CreateResult × CreateEffects × FileState :=
  if model = "" ∨ dataset = "" ∨ method = "" ∨ hardware = "" then
    (.err "Missing required parameters: model, dataset, method, hardware",
     ⟨0, 0⟩, fs)
  else
    match estimate_cost env.hf_api model dataset hardware
        (cfg.epochs.getD 3) (cfg.batch_size.getD 8) with
    | none => (.err "ZeroDivisionError", ⟨0, 0⟩, fs)
    | some est =>
      if env.budget_limit < est.estimated_cost_usd then
        (.rejected "Estimated cost exceeds budget limit"
          est.estimated_cost_usd env.budget_limit, ⟨0, 0⟩, fs)
      else if env.hf_api ∧ env.hf_has_create then
        (.submitted ("hf-job-" ++ env.hf_job_suffix) "hf_jobs"
          est.estimated_cost_usd est.estimated_time_minutes hardware,
         ⟨1, 0⟩, fs)
      else if env.github_token then
        if env.gh_dispatch_ok then
          let jid := "gh-" ++ env.gh_run_id
          let job : Job :=
            { job_id := jid, status := "pending", model := model,
              dataset := dataset, method := method, hardware := hardware,
              config := cfg, estimated_cost_usd := est.estimated_cost_usd,
              estimated_time_minutes := est.estimated_time_minutes,
              workflow_url := env.gh_html_url, backend := "github_actions",
              created_at := "", updated_at := "" }
          let w := storage_create_job now fs job
          (.submitted jid "github_actions" est.estimated_cost_usd
            est.estimated_time_minutes hardware, ⟨0, 1⟩, w.2)
        else (.err "workflow dispatch failed", ⟨0, 1⟩, fs)
      else
        (.err "No training backend available (HF Jobs API or GitHub Actions)",
         ⟨0, 0⟩, fs)

/-! ## Status retrieval (`MonitoringTools.get_status`,
monitoring.py 27-135) -/

/-- Fields of the GitHub Actions run object that
`_get_github_status` reads (`run_data.get(...)`, hence optional). -/
structure GhRun where
  status : Option String
  conclusion : Option String
  html_url : Option String
  created_at : String
  updated_at : Option String
  deriving DecidableEq, Repr

/-- Environment of a status/cancel call: whether a GitHub token is
configured, and the backend response (`none` models an HTTP failure that
makes `raise_for_status` throw). -/
structure StatusEnv where
  token : Bool
  run_response : Option GhRun
  deriving DecidableEq, Repr

/-- Return dict of `MonitoringTools._get_github_status`
(monitoring.py 121-135); the registry metadata fields come from
`job_data.get(...)` over `self.storage.get_job(job_id) or {}`, hence are
`none` when the job is unknown to the registry.  The wall-clock
`elapsed_time_minutes` field is not modelled. -/
structure GhStatusResult where
  job_id : String
  status : String
  gh_status : Option String
  gh_conclusion : Option String
  workflow_url : Option String
  created_at : Option String
  updated_at : Option String
  model : Option String
  dataset : Option String
  method : Option String
  hardware : Option String
  message : String
  deriving DecidableEq, Repr

/-- `MonitoringTools._get_github_status` (monitoring.py 72-135): query the
run, map its status pair, read the registry record if any, write the
mapped status back into the registry, and return the merged result. -/
def get_github_status (env : StatusEnv) (now : String) (fs : FileState)
    (job_id : String) : Except String GhStatusResult × FileState :=
  if ¬env.token then (.error "GitHub token not configured", fs)
  else
    match env.run_response with
    | none => (.error "BackendCallFailed", fs)
    | some run =>
      let status := map_gh_status run.status run.conclusion
      let job_data := storage_get_job fs job_id
      let w := storage_update_job now fs job_id ⟨some status⟩
      (.ok { job_id := job_id, status := status, gh_status := run.status,
             gh_conclusion := run.conclusion, workflow_url := run.html_url,
             created_at := some run.created_at, updated_at := run.updated_at,
             model := job_data.map Job.model,
             dataset := job_data.map Job.dataset,
             method := job_data.map Job.method,
             hardware := job_data.map Job.hardware,
             message := "Training " ++ status ++ " via GitHub Actions" },
       w.2)

/-- Outcome of `MonitoringTools.get_status` (monitoring.py 27-43): a
raised error, a GitHub-backed result, or the fixed `_get_hf_status`
placeholder dict (monitoring.py 45-70), of which only the echoed job id
varies. -/
inductive StatusOutcome where
  | err (msg : String)
  | gh (r : GhStatusResult)
  | hfPlaceholder (job_id : String)
  deriving DecidableEq, Repr

/-- `MonitoringTools.get_status` (monitoring.py 27-43): route on the
`gh-` prefix of the job id; no registry existence check is performed
before routing. -/
def get_status (env : StatusEnv) (now : String) (fs : FileState)
    (job_id : String) : StatusOutcome × FileState :=
  if job_id = "" then (.err "Missing required parameter: job_id", fs)
  else if strStarts job_id "gh-" then
    let r := get_github_status env now fs job_id
    match r.1 with
    | .ok x => (.gh x, r.2)
    | .error m => (.err m, r.2)
  else (.hfPlaceholder job_id, fs)

/-! ## Cancellation (`MonitoringTools.cancel_job`, monitoring.py 160-213) -/

/-- Return dict of `MonitoringTools.cancel_job` on a non-raising path
(monitoring.py 179-183 and 206-210). -/
structure CancelResult where
  job_id : String
  success : Bool
  message : String
  deriving DecidableEq, Repr

/-- Statuses the code treats as terminal (monitoring.py 178). -/
def terminal_statuses : List String := ["completed", "failed", "cancelled"]

/-- `MonitoringTools.cancel_job` (monitoring.py 160-213).  The `ℕ`
component counts backend cancellation calls issued.  `env.run_response =
none` models the cancel POST failing (`raise_for_status`). -/
def cancel_job (env : StatusEnv) (now : String) (fs : FileState)
    (job_id : String) : Except String CancelResult × FileState × ℕ :=
  if job_id = "" then (.error "Missing required parameter: job_id", fs, 0)
  else
    match storage_get_job fs job_id with
    | none => (.error ("Job " ++ job_id ++ " not found"), fs, 0)
    | some j =>
      if j.status ∈ terminal_statuses then
        (.ok { job_id := job_id, success := false,
               message := "Job is already " ++ j.status }, fs, 0)
      else if strStarts job_id "gh-" then
        if ¬env.token then (.error "GitHub token not configured", fs, 0)
        else if env.run_response = none then (.error "BackendCallFailed", fs, 1)
        else
          let w := storage_update_job now fs job_id ⟨some "cancelled"⟩
          (.ok { job_id := job_id, success := true,
                 message := "Job cancelled successfully" }, w.2, 1)
      else (.error "HF Jobs cancellation not yet implemented", fs, 0)

/-! ## Helper lemmas -/

theorem roundHalfEven_ge_floor (q : ℚ) : ⌊q⌋ ≤ roundHalfEven q := by
  unfold roundHalfEven
  split_ifs <;> omega

theorem roundHalfEven_le_floor_add_one (q : ℚ) : roundHalfEven q ≤ ⌊q⌋ + 1 := by
  unfold roundHalfEven
  split_ifs <;> omega

theorem roundHalfEven_mono {a b : ℚ} (h : a ≤ b) :
    roundHalfEven a ≤ roundHalfEven b := by
  rcases lt_or_eq_of_le (Int.floor_mono h) with hlt | heq
  · calc roundHalfEven a ≤ ⌊a⌋ + 1 := roundHalfEven_le_floor_add_one a
      _ ≤ ⌊b⌋ := by omega
      _ ≤ roundHalfEven b := roundHalfEven_ge_floor b
  · have hfrac : a - (⌊a⌋ : ℚ) ≤ b - (⌊b⌋ : ℚ) := by
      rw [← heq]; linarith
    unfold roundHalfEven
    rw [← heq]
    split_ifs <;> first | omega | linarith

theorem pyRound_mono {a b : ℚ} (n : ℕ) (h : a ≤ b) :
    pyRound a n ≤ pyRound b n := by
  unfold pyRound
  have hp : (0:ℚ) < 10 ^ n := by positivity
  have hr : ((roundHalfEven (a * 10 ^ n) : ℚ)) ≤ roundHalfEven (b * 10 ^ n) := by
    exact_mod_cast roundHalfEven_mono (mul_le_mul_of_nonneg_right h hp.le)
  exact (div_le_div_iff_of_pos_right hp).mpr hr

theorem hardware_costs_pos (hardware : String) : 0 < hardware_costs hardware := by
  unfold hardware_costs
  split_ifs <;> norm_num

theorem steps_per_second_base_pos (hardware : String) :
    0 < steps_per_second_base hardware := by
  unfold steps_per_second_base
  split_ifs <;> norm_num

theorem size_multiplier_pos (model : String) : 0 < size_multiplier model := by
  unfold size_multiplier
  split_ifs <;> norm_num

theorem adjusted_rate_pos (model hardware : String) :
    0 < adjusted_rate model hardware :=
  mul_pos (steps_per_second_base_pos hardware) (size_multiplier_pos model)

theorem estimate_dataset_size_pos (hf_api : Bool) (dataset : String) :
    0 < estimate_dataset_size hf_api dataset := by
  unfold estimate_dataset_size
  split_ifs <;> norm_num

theorem update_in_list_not_found (now job_id : String) (upd : Updates) :
    ∀ l : List Job, (∀ j ∈ l, ¬(j.job_id = job_id)) →
      update_in_list now job_id upd l = (none, l) := by
  intro l
  induction l with
  | nil => intro _; rfl
  | cons j rest ih =>
    intro hall
    unfold update_in_list
    rw [if_neg (hall j (by simp))]
    rw [ih (fun k hk => hall k (by simp [hk]))]

theorem storage_update_job_not_found (now : String) (fs : FileState)
    (job_id : String) (upd : Updates)
    (h : storage_get_job fs job_id = none) :
    storage_update_job now fs job_id upd = (none, fs) := by
  unfold storage_get_job at h
  unfold storage_update_job
  rw [update_in_list_not_found now job_id upd (read_jobs fs)
    (by
      intro j hj hid
      have := List.find?_eq_none.mp h j hj
      simp [hid] at this)]

/-- Fixture: a registry record in the terminal status `completed`. -/
def sampleJob : Job :=
  { job_id := "gh-1", status := "completed", model := "Qwen2.5-0.5B",
    dataset := "open-r1/codeforces-cots", method := "sft",
    hardware := "t4-small", config := ⟨none, none⟩,
    estimated_cost_usd := 0.2, estimated_time_minutes := 16,
    workflow_url := some "https://g/run/1", backend := "github_actions",
    created_at := "2025-01-01T00:00:00", updated_at := "2025-01-01T00:00:00" }

/-! ## Claim theorems -/

/-- Status table exactly as the C6 claim words it: `queued`/`waiting` →
Pending, `in_progress` → Running, `completed`+`success` → Completed,
`completed` + (`failure`|`cancelled`|`timed_out`) → Failed, and every
other combination → Unknown. -/
def claimed_status_table (gh_status gh_conclusion : Option String) : String :=
  if gh_status = some "queued" ∨ gh_status = some "waiting" then "pending"
  else if gh_status = some "in_progress" then "running"
  else if gh_status = some "completed" ∧ gh_conclusion = some "success" then
    "completed"
  else if gh_status = some "completed" ∧
      (gh_conclusion = some "failure" ∨ gh_conclusion = some "cancelled" ∨
       gh_conclusion = some "timed_out") then "failed"
  else "unknown"

/-- C6 (counterexample): the mapper does not implement exactly the claimed
table.  At `(status = "completed", conclusion = "skipped")` the claimed
table yields `unknown`, but the code's inner `else` (monitoring.py 102-103)
yields `failed`. -/
theorem map_gh_status_differs_from_claimed_table :
    map_gh_status (some "completed") (some "skipped") = "failed" ∧
    claimed_status_table (some "completed") (some "skipped") = "unknown" := by
  constructor <;> rfl

/-- Status table as amended: a `completed` run with any conclusion other
than `success` — recognized failure vocabulary or not — maps to `failed`;
`queued`/`waiting` → `pending`; `in_progress` → `running`; every other raw
status maps to `unknown`. -/
def amended_status_table (gh_status gh_conclusion : Option String) : String :=
  if gh_status = some "completed" then
    if gh_conclusion = some "success" then "completed" else "failed"
  else if gh_status = some "queued" ∨ gh_status = some "waiting" then "pending"
  else if gh_status = some "in_progress" then "running"
  else "unknown"

/-- C6 (amended): the status mapper agrees with the amended table on every
`(rawStatus, rawConclusion)` pair. -/
theorem map_gh_status_eq_amended_table (gh_status gh_conclusion : Option String) :
    map_gh_status gh_status gh_conclusion =
      amended_status_table gh_status gh_conclusion := by
  unfold map_gh_status amended_status_table
  split_ifs <;> rfl

/-- C7: the status mapper is a total function into the canonical status
vocabulary — for every `(rawStatus, rawConclusion)` pair, recognized or
not, it returns one of the canonical status strings (and, being a Lean
function, it is deterministic and never raises). -/
theorem map_gh_status_total (gh_status gh_conclusion : Option String) :
    map_gh_status gh_status gh_conclusion ∈
      ["pending", "running", "completed", "failed", "unknown"] := by
  unfold map_gh_status
  split_ifs <;> simp

/-- C8: on model `"Qwen2.5-0.5B"`, dataset `"open-r1/codeforces-cots"`
with no HF API client (hence 5000 examples), hardware `"t4-small"`,
`epochs = 3`, `batch_size = 8`, the estimator computes
`total_steps = 1875`, `estimated_seconds = 937.5` (= 1875/2 s, i.e.
15.625 ≈ 15.6 minutes before rounding), and returns
`estimated_time_hours = 0.26` and `estimated_cost_usd = 0.20`. -/
theorem estimate_cost_concrete_scenario :
    estimated_seconds_v false "Qwen2.5-0.5B" "open-r1/codeforces-cots"
        "t4-small" 3 8 = 937.5 ∧
    estimated_minutes_v false "Qwen2.5-0.5B" "open-r1/codeforces-cots"
        "t4-small" 3 8 = 15.625 ∧
    estimate_cost false "Qwen2.5-0.5B" "open-r1/codeforces-cots"
        "t4-small" 3 8 = some
      { estimated_time_minutes := 16
        estimated_time_hours := 0.26
        estimated_cost_usd := 0.20
        hourly_rate_usd := 0.75
        hardware := "t4-small"
        model_size := "0.5B"
        dataset_size := 5000
        epochs := 3
        batch_size := 8
        total_steps := 1875
        steps_per_second := 2
        time_per_epoch_minutes := 5 } := by
  refine ⟨by with_unfolding_all rfl, by with_unfolding_all rfl,
    by with_unfolding_all rfl⟩

/-- C1: when the computed cost estimate exceeds the configured budget
ceiling, `create_job` returns the structured rejection carrying the
estimate and the ceiling, performs no backend submission on either
backend, and leaves the registry file untouched. -/
theorem create_job_budget_rejection (env : CreateEnv) (now : String)
    (fs : FileState) (model dataset method hardware : String) (cfg : Config)
    (est : CostEstimate)
    (hm : ¬(model = "" ∨ dataset = "" ∨ method = "" ∨ hardware = ""))
    (hest : estimate_cost env.hf_api model dataset hardware
      (cfg.epochs.getD 3) (cfg.batch_size.getD 8) = some est)
    (hover : env.budget_limit < est.estimated_cost_usd) :
    create_job env now fs model dataset method hardware cfg =
      (.rejected "Estimated cost exceeds budget limit"
        est.estimated_cost_usd env.budget_limit, ⟨0, 0⟩, fs) := by
  unfold create_job
  rw [if_neg hm, hest]
  dsimp only
  rw [if_pos hover]

/-- Witness for C1: a request over a zero budget ceiling is rejected with
the estimate (`$0.52`) and the ceiling, zero backend calls, and an
unchanged registry. -/
theorem create_job_budget_rejection_witness :
    create_job ⟨0, false, false, "", false, false, "", none⟩ "t0"
        (FileState.valid []) "m" "d" "sft" "x" ⟨none, none⟩ =
      (.rejected "Estimated cost exceeds budget limit"
        ((estimate_core false "m" "d" "x" 3 8).estimated_cost_usd) 0,
       ⟨0, 0⟩, FileState.valid []) ∧
    (estimate_core false "m" "d" "x" 3 8).estimated_cost_usd = 0.52 :=
  ⟨create_job_budget_rejection ⟨0, false, false, "", false, false, "", none⟩
      "t0" (FileState.valid []) "m" "d" "sft" "x" ⟨none, none⟩
      (estimate_core false "m" "d" "x" 3 8) (by simp)
      (by with_unfolding_all rfl) (by with_unfolding_all rfl),
   by with_unfolding_all rfl⟩

/-- C3 (counterexample): a submission that succeeds on the primary
backend (HF Jobs path, entered when the client exposes
`create_training_job`) returns a `submitted` result after one primary
backend call yet writes nothing to the registry — the file is still the
empty list, so no `Pending` record was persisted. -/
theorem create_job_primary_success_persists_nothing :
    create_job ⟨1000, true, true, "X", false, false, "", none⟩ "t0"
        (FileState.valid []) "m" "d" "sft" "t4-small" ⟨none, none⟩ =
      (.submitted "hf-job-X" "hf_jobs" 0.39 31 "t4-small",
       ⟨1, 0⟩, FileState.valid []) := by
  with_unfolding_all rfl

/-- C3 (amended): only secondary-backend (workflow dispatch) submissions
persist a record: when the budget gate passes, the HF Jobs path is not
taken, a GitHub token is configured and the dispatch succeeds,
`create_job` appends to the registry a record with status `pending`,
backend `github_actions`, the `gh-`-prefixed run reference, and the
frozen estimate, before returning the submitted result. -/
theorem create_job_secondary_success_persists_record (env : CreateEnv)
    (now : String) (fs : FileState)
    (model dataset method hardware : String) (cfg : Config)
    (est : CostEstimate)
    (hm : ¬(model = "" ∨ dataset = "" ∨ method = "" ∨ hardware = ""))
    (hest : estimate_cost env.hf_api model dataset hardware
      (cfg.epochs.getD 3) (cfg.batch_size.getD 8) = some est)
    (hbudget : ¬(env.budget_limit < est.estimated_cost_usd))
    (hnohf : ¬(env.hf_api = true ∧ env.hf_has_create = true))
    (htok : env.github_token = true)
    (hdisp : env.gh_dispatch_ok = true) :
    create_job env now fs model dataset method hardware cfg =
      (.submitted ("gh-" ++ env.gh_run_id) "github_actions"
        est.estimated_cost_usd est.estimated_time_minutes hardware,
       ⟨0, 1⟩,
       FileState.valid (read_jobs fs ++
        [{ job_id := "gh-" ++ env.gh_run_id, status := "pending",
           model := model, dataset := dataset, method := method,
           hardware := hardware, config := cfg,
           estimated_cost_usd := est.estimated_cost_usd,
           estimated_time_minutes := est.estimated_time_minutes,
           workflow_url := env.gh_html_url, backend := "github_actions",
           created_at := now, updated_at := now }])) := by
  unfold create_job
  rw [if_neg hm, hest]
  dsimp only
  rw [if_neg hbudget, if_neg hnohf, if_pos htok, if_pos hdisp]
  rfl

/-- Witness for the amended C3: a concrete workflow-dispatch submission
appends the pending record for run 42 (estimate `$0.39`, 31 minutes). -/
theorem create_job_secondary_success_persists_record_witness :
    create_job ⟨1000, false, false, "", true, true, "42", some "https://g/run/42"⟩
        "t0" (FileState.valid []) "m" "d" "sft" "t4-small" ⟨none, none⟩ =
      (.submitted "gh-42" "github_actions"
        ((estimate_core false "m" "d" "t4-small" 3 8).estimated_cost_usd)
        ((estimate_core false "m" "d" "t4-small" 3 8).estimated_time_minutes)
        "t4-small",
       ⟨0, 1⟩,
       FileState.valid
        [{ job_id := "gh-42", status := "pending", model := "m",
           dataset := "d", method := "sft", hardware := "t4-small",
           config := ⟨none, none⟩,
           estimated_cost_usd :=
             (estimate_core false "m" "d" "t4-small" 3 8).estimated_cost_usd,
           estimated_time_minutes :=
             (estimate_core false "m" "d" "t4-small" 3 8).estimated_time_minutes,
           workflow_url := some "https://g/run/42",
           backend := "github_actions",
           created_at := "t0", updated_at := "t0" }]) ∧
    (estimate_core false "m" "d" "t4-small" 3 8).estimated_cost_usd = 0.39 ∧
    (estimate_core false "m" "d" "t4-small" 3 8).estimated_time_minutes = 31 :=
  ⟨create_job_secondary_success_persists_record
      ⟨1000, false, false, "", true, true, "42", some "https://g/run/42"⟩
      "t0" (FileState.valid []) "m" "d" "sft" "t4-small" ⟨none, none⟩
      (estimate_core false "m" "d" "t4-small" 3 8) (by simp)
      (by with_unfolding_all rfl) (by with_unfolding_all decide)
      (by simp) rfl rfl,
   by with_unfolding_all rfl, by with_unfolding_all rfl⟩

/-- C2 (counterexample): a record stored with the terminal status
`completed` is moved back to `running` both by a direct registry update
and by the `GetStatus` write-back (here the backend reports
`in_progress`): neither path guards terminal statuses. -/
theorem update_job_moves_terminal_status :
    sampleJob.status = "completed" ∧
    (storage_update_job "t1" (FileState.valid [sampleJob]) "gh-1"
        ⟨some "running"⟩).1 =
      some { sampleJob with status := "running", updated_at := "t1" } ∧
    (get_status ⟨true, some ⟨some "in_progress", none, none, "t0", none⟩⟩
        "t1" (FileState.valid [sampleJob]) "gh-1").2 =
      FileState.valid [{ sampleJob with status := "running", updated_at := "t1" }] := by
  refine ⟨rfl, by with_unfolding_all rfl, by with_unfolding_all rfl⟩

/-- C2 (amended): the registry update applies any provided status
unconditionally: updating a record whose stored status is terminal
(`completed`, `failed` or `cancelled`) replaces that status with the new
value and rewrites the file — terminal statuses are not protected (only
`cancel_job` treats them specially, by refusing to cancel). -/
theorem update_job_overwrites_terminal_status (now s : String) (j : Job)
    (rest : List Job) (hterm : j.status ∈ terminal_statuses) :
    storage_update_job now (FileState.valid (j :: rest)) j.job_id ⟨some s⟩ =
      (some { j with status := s, updated_at := now },
       FileState.valid ({ j with status := s, updated_at := now } :: rest)) := by
  unfold storage_update_job read_jobs update_in_list
  rw [if_pos rfl]
  rfl

/-- Witness for the amended C2: the `completed` fixture record is moved
to `running`. -/
theorem update_job_overwrites_terminal_status_witness :
    storage_update_job "t1" (FileState.valid [sampleJob]) sampleJob.job_id
        ⟨some "running"⟩ =
      (some { sampleJob with status := "running", updated_at := "t1" },
       FileState.valid [{ sampleJob with status := "running", updated_at := "t1" }]) :=
  update_job_overwrites_terminal_status "t1" "running" sampleJob [] (by decide)

/-- C4: cancelling a job whose stored status is terminal returns the
structured no-op result ("Job is already ...") without raising, issues
zero backend cancellation calls, leaves the registry untouched, and —
because the state is unchanged — an immediately repeated cancel returns
the very same result. -/
theorem cancel_job_terminal_noop (env : StatusEnv) (now : String)
    (fs : FileState) (job_id : String) (j : Job)
    (hid : ¬(job_id = ""))
    (hget : storage_get_job fs job_id = some j)
    (hterm : j.status ∈ terminal_statuses) :
    cancel_job env now fs job_id =
      (.ok { job_id := job_id, success := false,
             message := "Job is already " ++ j.status }, fs, 0) ∧
    cancel_job env now (cancel_job env now fs job_id).2.1 job_id =
      cancel_job env now fs job_id := by
  have h1 : cancel_job env now fs job_id =
      (.ok { job_id := job_id, success := false,
             message := "Job is already " ++ j.status }, fs, 0) := by
    unfold cancel_job
    rw [if_neg hid, hget]
    dsimp only
    rw [if_pos hterm]
  exact ⟨h1, by rw [h1]; exact h1⟩

/-- Witness for C4: cancelling the already-`completed` fixture job twice
produces the identical "Job is already completed" no-op both times with
zero backend calls. -/
theorem cancel_job_terminal_noop_witness :
    cancel_job ⟨true, none⟩ "t1" (FileState.valid [sampleJob]) "gh-1" =
      (.ok { job_id := "gh-1", success := false,
             message := "Job is already " ++ sampleJob.status },
       FileState.valid [sampleJob], 0) ∧
    cancel_job ⟨true, none⟩ "t1"
        ((cancel_job ⟨true, none⟩ "t1" (FileState.valid [sampleJob]) "gh-1").2.1)
        "gh-1" =
      cancel_job ⟨true, none⟩ "t1" (FileState.valid [sampleJob]) "gh-1" :=
  cancel_job_terminal_noop ⟨true, none⟩ "t1" (FileState.valid [sampleJob])
    "gh-1" sampleJob (by decide) rfl (by decide)

/-- C5 (counterexample): for the id `gh-99`, absent from the registry,
`get_status` does not return a `NotFound` error: it queries the backend
and returns a fabricated status result whose registry metadata fields
(model, dataset, method, hardware) are all empty. -/
theorem get_status_unknown_id_no_not_found :
    get_status ⟨true, some ⟨some "queued", none, some "https://g/run/99", "t0", none⟩⟩
        "t1" (FileState.valid []) "gh-99" =
      (.gh { job_id := "gh-99", status := "pending",
             gh_status := some "queued", gh_conclusion := none,
             workflow_url := some "https://g/run/99",
             created_at := some "t0", updated_at := none,
             model := none, dataset := none, method := none, hardware := none,
             message := "Training pending via GitHub Actions" },
       FileState.valid []) := by
  with_unfolding_all rfl

/-- C5 (amended): for a `gh-`-prefixed job id that is unknown to the
registry, `get_status` (given a token and a backend response) returns a
status result — not `NotFound` — whose registry metadata fields are all
`none`, and the registry is left unchanged (the write-back finds no
record to update). -/
theorem get_status_unknown_id_fabricates (env : StatusEnv) (now : String)
    (fs : FileState) (job_id : String) (run : GhRun)
    (hpre : strStarts job_id "gh-" = true)
    (htok : env.token = true)
    (hrun : env.run_response = some run)
    (hnone : storage_get_job fs job_id = none) :
    get_status env now fs job_id =
      (.gh { job_id := job_id,
             status := map_gh_status run.status run.conclusion,
             gh_status := run.status, gh_conclusion := run.conclusion,
             workflow_url := run.html_url,
             created_at := some run.created_at, updated_at := run.updated_at,
             model := none, dataset := none, method := none, hardware := none,
             message := "Training " ++ map_gh_status run.status run.conclusion
               ++ " via GitHub Actions" },
       fs) := by
  have hid : ¬(job_id = "") := by
    intro h
    rw [h] at hpre
    exact absurd hpre (by decide)
  unfold get_status get_github_status
  rw [if_neg hid, if_pos hpre, htok, hrun]
  dsimp only
  rw [hnone, storage_update_job_not_found now fs job_id ⟨some (map_gh_status run.status run.conclusion)⟩ hnone]
  rfl

/-- Witness for the amended C5: concrete unknown id `gh-7` over an empty
registry yields the fabricated result with empty metadata. -/
theorem get_status_unknown_id_fabricates_witness :
    get_status ⟨true, some ⟨some "in_progress", none, none, "t0", none⟩⟩
        "t1" (FileState.valid []) "gh-7" =
      (.gh { job_id := "gh-7",
             status := map_gh_status (some "in_progress") none,
             gh_status := some "in_progress", gh_conclusion := none,
             workflow_url := none,
             created_at := some "t0", updated_at := none,
             model := none, dataset := none, method := none, hardware := none,
             message := "Training " ++ map_gh_status (some "in_progress") none
               ++ " via GitHub Actions" },
       FileState.valid []) :=
  get_status_unknown_id_fabricates ⟨true, some ⟨some "in_progress", none, none, "t0", none⟩⟩
    "t1" (FileState.valid []) "gh-7" ⟨some "in_progress", none, none, "t0", none⟩
    (by decide) rfl rfl rfl

/-- Monotonicity of the raw (pre-rounding) cost in the epoch count: with
a positive batch size, more epochs never lower the estimated cost. -/
theorem estimated_cost_v_mono (hf_api : Bool) (model dataset hardware : String)
    {batch_size e1 e2 : ℤ} (hb : 0 < batch_size) (he : e1 ≤ e2) :
    estimated_cost_v hf_api model dataset hardware e1 batch_size ≤
      estimated_cost_v hf_api model dataset hardware e2 batch_size := by
  unfold estimated_cost_v estimated_hours_v estimated_minutes_v
    estimated_seconds_v total_steps_v
  have hds : (0:ℚ) ≤ (estimate_dataset_size hf_api dataset : ℚ) := by
    exact_mod_cast (estimate_dataset_size_pos hf_api dataset).le
  have hrate : (0:ℚ) < adjusted_rate model hardware :=
    adjusted_rate_pos model hardware
  have hcost : (0:ℚ) ≤ hardware_costs hardware :=
    (hardware_costs_pos hardware).le
  have hbq : (0:ℚ) < (batch_size:ℚ) := by exact_mod_cast hb
  have heq : (e1:ℚ) ≤ (e2:ℚ) := by exact_mod_cast he
  gcongr

/-- C9: for two estimator calls differing only in the epoch count (with a
positive batch size, and epoch counts on which the estimator does not
raise), the call with more epochs reports an `estimated_cost_usd` at
least as large. -/
theorem estimate_cost_monotone_in_epochs (hf_api : Bool)
    (model dataset hardware : String) (batch_size e1 e2 : ℤ)
    (hb : 0 < batch_size) (h1 : ¬(e1 = 0)) (h2 : ¬(e2 = 0)) (he : e1 ≤ e2) :
    ∃ est1 est2,
      estimate_cost hf_api model dataset hardware e1 batch_size = some est1 ∧
      estimate_cost hf_api model dataset hardware e2 batch_size = some est2 ∧
      est1.estimated_cost_usd ≤ est2.estimated_cost_usd := by
  refine ⟨estimate_core hf_api model dataset hardware e1 batch_size,
          estimate_core hf_api model dataset hardware e2 batch_size, ?_, ?_, ?_⟩
  · unfold estimate_cost
    rw [if_neg (not_or.mpr ⟨hb.ne', h1⟩)]
  · unfold estimate_cost
    rw [if_neg (not_or.mpr ⟨hb.ne', h2⟩)]
  · show pyRound (estimated_cost_v hf_api model dataset hardware e1 batch_size) 2 ≤
      pyRound (estimated_cost_v hf_api model dataset hardware e2 batch_size) 2
    exact pyRound_mono 2 (estimated_cost_v_mono hf_api model dataset hardware hb he)

/-- Witness for C9: at 2 versus 3 epochs (all else fixed) the reported
cost does not decrease. -/
theorem estimate_cost_monotone_in_epochs_witness :
    ∃ est1 est2,
      estimate_cost false "m" "d" "t4-small" 2 8 = some est1 ∧
      estimate_cost false "m" "d" "t4-small" 3 8 = some est2 ∧
      est1.estimated_cost_usd ≤ est2.estimated_cost_usd :=
  estimate_cost_monotone_in_epochs false "m" "d" "t4-small" 8 2 3
    (by decide) (by decide) (by decide) (by decide)

/-- C10: when the registry file is missing or holds invalid JSON, every
read behaves as if the registry were empty — `get_job` returns `None`,
`list_jobs` returns the empty list, `get_stats` reports zero total jobs —
and a subsequent `create_job` rewrites the file so that it holds exactly
the one new (time-stamped) record. -/
theorem storage_degrades_to_empty (fs : FileState) (job_id now : String)
    (jd : Job) (stF : Option String) (lim : Option ℕ) (off : ℕ)
    (hfs : fs = FileState.missing ∨ fs = FileState.invalid) :
    storage_get_job fs job_id = none ∧
    storage_list_jobs fs stF lim off = [] ∧
    (storage_get_stats fs).total_jobs = 0 ∧
    storage_create_job now fs jd =
      ({ jd with created_at := now, updated_at := now },
       FileState.valid [{ jd with created_at := now, updated_at := now }]) := by
  have hread : read_jobs fs = [] := by
    rcases hfs with h | h <;> rw [h] <;> rfl
  refine ⟨?_, ?_, ?_, ?_⟩
  · unfold storage_get_job
    rw [hread]
    rfl
  · unfold storage_list_jobs
    rw [hread]
    rcases stF with _ | s <;> rcases lim with _ | l <;>
      split_ifs <;> simp [sortByCreatedDesc]
  · unfold storage_get_stats
    rw [hread]
    rfl
  · unfold storage_create_job
    rw [hread]
    rfl

/-- Witness for C10: over an invalid registry file the three reads are
empty and `create_job` rewrites the file to exactly the new record. -/
theorem storage_degrades_to_empty_witness :
    storage_get_job FileState.invalid "gh-1" = none ∧
    storage_list_jobs FileState.invalid (some "completed") (some 10) 0 = [] ∧
    (storage_get_stats FileState.invalid).total_jobs = 0 ∧
    storage_create_job "t0" FileState.invalid sampleJob =
      ({ sampleJob with created_at := "t0", updated_at := "t0" },
       FileState.valid [{ sampleJob with created_at := "t0", updated_at := "t0" }]) :=
  storage_degrades_to_empty FileState.invalid "gh-1" "t0" sampleJob
    (some "completed") (some 10) 0 (Or.inr rfl)
